import Mathlib

/-!
Verification of the recruitment pipeline of `ai_mock_interviews`.

Shallow embedding of the TypeScript route handlers and server actions:

* `src/app/api/resume/process/route.ts` — batch resume upload, text
  extraction, AI scoring, shortlisting;
* `src/app/api/recruit/dashboard/route.ts` (second handler in the staged
  file) — statistics recomputation;
* the shortlisted-candidates page — its `recommended === "yes"` filter;
* the Calendly webhook receiver — HMAC-SHA256 signature verification;
* `src/app/api/interview/run/route.ts` — interview runner status writes;
* `src/lib/actions/general.action.ts` — `getLatestInterviews`.

Conventions: JavaScript numbers are modelled as `Rat` (every float is a
rational, and the code only ever adds, divides and compares them);
JavaScript strings as `String`; buffers as `List Nat` of byte values;
a JavaScript `throw` as `Except.error`.  External library calls that the
code treats as black boxes (the Gemini `generateObject` call, `mammoth`,
`pdf-parse`, `Buffer.toString("utf-8")`) are universally quantified
oracle parameters, so every theorem holds for every behaviour of those
libraries.  Functions of the JS runtime that the logic depends on
(`Buffer.from(s, "hex")`, `crypto.timingSafeEqual`, HMAC-SHA256,
`String.prototype.trim`) are implemented faithfully below.
-/

/-! ## Data model: candidate analysis (schema of `candidateInfoSchema`,
`src/app/api/resume/process/route.ts` lines 9-32) -/

/-- `scoringBreakdown` object of the Gemini analysis schema. -/
structure ScoringBreakdown where
  skillsMatch : Rat
  experienceMatch : Rat
  roleAlignment : Rat
  educationMatch : Rat
  deriving DecidableEq

/-- `recommended: z.enum(["yes", "no"])`. -/
inductive Recommended where
  | yes
  | no
  deriving DecidableEq

/-- `detailedFeedback` object of the Gemini analysis schema. -/
structure DetailedFeedback where
  strengths : List String
  weaknesses : List String
  specificGaps : List String
  recommendations : List String
  scoreExplanation : String
  deriving DecidableEq

/-- A structured candidate analysis (`CandidateInfo` in the repo's shared
interface file; the Zod schema of the processing route). -/
structure CandidateAnalysis where
  candidateName : String
  email : Option String
  topSkills : List String
  summary : String
  matchScore : Rat
  recommended : Recommended
  scoringBreakdown : ScoringBreakdown
  matchedSkills : List String
  missingSkills : List String
  experienceLevel : String
  detailedFeedback : DetailedFeedback
  deriving DecidableEq

/-! ## The shortlist decision rules found in the codebase -/

/-- The criteria check of the resume-processing route
(`src/app/api/resume/process/route.ts` lines 454-458): matchScore,
skillsMatch, experienceMatch, roleAlignment each at least 85.
`educationMatch` is not inspected. -/
def meetsCriteria (a : CandidateAnalysis) : Bool :=
  decide (a.matchScore ≥ 85) &&
  decide (a.scoringBreakdown.skillsMatch ≥ 85) &&
  decide (a.scoringBreakdown.experienceMatch ≥ 85) &&
  decide (a.scoringBreakdown.roleAlignment ≥ 85)

/-- The rule as the claim states it: overall match score and all FOUR
breakdown dimensions at least 85.  (Stated from the spec's words, for
comparison with `meetsCriteria`, which is the code's rule.) -/
def specFourDimensionRule (a : CandidateAnalysis) : Prop :=
  a.matchScore ≥ 85 ∧
  a.scoringBreakdown.skillsMatch ≥ 85 ∧
  a.scoringBreakdown.experienceMatch ≥ 85 ∧
  a.scoringBreakdown.roleAlignment ≥ 85 ∧
  a.scoringBreakdown.educationMatch ≥ 85

instance (a : CandidateAnalysis) : Decidable (specFourDimensionRule a) := by
  unfold specFourDimensionRule
  infer_instance

/-! ## JavaScript helpers -/

/-- `x || y` for an optional JS string (`null`/`undefined` and `""` are
falsy). -/
def jsOrString (x : Option String) (d : String) : String :=
  match x with
  | none => d
  | some s => if s = "" then d else s

/-- Truthiness of an optional JS string. -/
def jsTruthyStr (x : Option String) : Bool :=
  match x with
  | none => false
  | some s => s != ""

/-- `x || y` for an optional JS number (`undefined` and `0` are falsy). -/
def jsOrNum (x : Option Rat) (d : Rat) : Rat :=
  match x with
  | none => d
  | some v => if v = 0 then d else v

/-- `String.prototype.trim`: strip whitespace from both ends. -/
def jsTrim (s : String) : String :=
  String.mk (((s.data.dropWhile Char.isWhitespace).reverse.dropWhile
    Char.isWhitespace).reverse)

/-! ## Files and text extraction
(`extractTextFromFile`, `src/app/api/resume/process/route.ts` lines 48-82,
and the legacy variant in the unnamed staged route, lines 34-58) -/

/-- An uploaded file: name, declared media type, byte content. -/
structure FileData where
  name : String
  type : String
  content : List Nat
  deriving DecidableEq

/-- Body of the hardcoded fallback resume returned for every PDF
(route.ts line 57, the part after the interpolated file name). -/
def fallbackResumeBody : String :=
  "\n\nHIMANSHU SHARMA\nPhone: +91 7717557226\nEmail: himi50071@gmail.com\nLinkedIn: https://www.linkedin.com/in/himanshu-sharma-24554523b\n\nEDUCATION\nBachelor\x27s in Computer Science (CGPA – 7.8) - Chitkara University, 2021 – 2025\n\nEXPERIENCE\nEXECUTIVE FULL STACK DEVELOPER - Present\nHexa Health | Gurgaon\n• Implemented encryption, Role-Based Access Control (RBAC), and vulnerability fixes, reducing security risks by 80%.\n• Developed modular services to enable faster deployments and horizontal scaling.\n• Integrated AI agents for patient queries, scheduling, and decision support, improving operational efficiency by 40%.\n• Led sprint planning, code reviews, and participated in 12-member development team.\n• Established observability pipelines for proactive incident detection and resolution.\n\nSOFTWARE DEVELOPER TRAINEE - 01/2025-07/2025\nTestingXperts | Chandigarh\n• Enhanced microservices architecture using Node.js, Python, and FastAPI with Redis caching, slashing latency by 45%.\n• Redesigned REST API/GraphQL endpoints, decreasing payload size by 30% and improving frontend efficiency.\n• Implemented event-driven architecture with Apache Kafka, strengthening real-time processing reliability.\n• Refactored PostgreSQL databases via query/schema tuning, accelerating performance by 35%.\n• Containerized services using Docker, standardizing environments and simplifying deployments.\n\nTECHNICAL SKILLS\nProgramming Languages: JavaScript, Python, Java\nFrontend: React.js, HTML5, CSS3\nBackend: Node.js, Express.js, FastAPI\nDatabases: MySQL, MongoDB, PostgreSQL, Redis\nTools & Technologies: Git, GitHub, Docker, CI/CD, Apache Kafka\nCloud & DevOps: AWS, Azure, Kubernetes\n\nNote: This is a fallback text extraction due to PDF parsing library issues."

/-- The full hardcoded text `PDF Document: ${file.name}` + body: the only
part of it that depends on the input is the embedded file name. -/
def hardcodedPdfText (name : String) : String :=
  "PDF Document: " ++ name ++ fallbackResumeBody

/-- The docx media type literal of the route. -/
def docxType : String :=
  "application/vnd.openxmlformats-officedocument.wordprocessingml.document"

/-- `try { body } catch (error) { return ""; }`: the catch-all of both
extractors. -/
def jsCatchEmpty (body : Except Unit String) : Except Unit String :=
  match body with
  | Except.ok s => Except.ok s
  | Except.error _ => Except.ok ""

/-- `extractTextFromFile` of the ACTIVE route
(`src/app/api/resume/process/route.ts` lines 48-82).  `utf8` models
`Buffer.prototype.toString("utf-8")` (total: Node substitutes replacement
characters, it never throws); `mammoth` models
`mammoth.extractRawText({buffer})`, `Except.error` being a thrown
exception.  The result is `Except.error` exactly when the function would
throw to ITS caller — the final catch returns `""` instead, so it never
does. -/
def extractTextFromFile (utf8 : List Nat → String)
    (mammoth : List Nat → Except Unit String) (file : FileData) :
    Except Unit String :=
  jsCatchEmpty
    (if file.type == "application/pdf" then
      Except.ok (hardcodedPdfText file.name)
    else if file.type == docxType || file.type == "application/msword" then
      -- inner try/catch: a mammoth throw falls back to utf-8 decoding
      (match mammoth file.content with
       | Except.ok r => Except.ok r
       | Except.error _ => Except.ok (utf8 file.content))
    else if file.type == "text/plain" then
      Except.ok (utf8 file.content)
    else
      Except.ok (utf8 file.content))

/-- `extractTextFromFile` of the LEGACY route variant (unnamed staged file,
lines 34-58): PDF goes through `pdf-parse` (oracle `pdfParse`), Word
through `mammoth` with NO inner catch; any throw is caught by the outer
catch, which returns `""`. -/
def extractTextFromFileLegacy (utf8 : List Nat → String)
    (pdfParse : List Nat → Except Unit String)
    (mammoth : List Nat → Except Unit String) (file : FileData) :
    Except Unit String :=
  jsCatchEmpty
    (if file.type == "application/pdf" then
      pdfParse file.content
    else if file.type == docxType || file.type == "application/msword" then
      mammoth file.content
    else if file.type == "text/plain" then
      Except.ok (utf8 file.content)
    else
      Except.ok (utf8 file.content))

/-! ## The per-file processing loop
(`src/app/api/resume/process/route.ts` lines 380-471) -/

/-- One entry of the run's `shortlisted` array (lines 461-466). -/
structure ShortEntry where
  id : String
  candidateName : String
  email : String
  matchScore : Rat
  deriving DecidableEq

/-- A candidate record as pushed onto `candidates` (lines 434-451). -/
structure RouteCandidate where
  id : String
  runId : String
  fileName : String
  textSnippet : String
  ai : CandidateAnalysis
  email : Option String
  createdAt : String
  deriving DecidableEq

/-- External calls the handler makes, in order. -/
inductive Effect where
  | runCreate
  | modelCall
  | candidateCreate
  | runUpdate
  | emailSend (recipient : String)
  | statsUpdate
  deriving DecidableEq

/-- Accumulator of the for-loop over files. -/
structure LoopState where
  candidates : List RouteCandidate
  shortlisted : List ShortEntry
  effects : List Effect
  deriving DecidableEq

/-- The shortlisted entry built for an analysed candidate (lines 461-466;
`analysis.email || "no-email@example.com"`). -/
def shortEntryOf (candidateId : String) (a : CandidateAnalysis) : ShortEntry :=
  { id := candidateId
    candidateName := a.candidateName
    email := jsOrString a.email "no-email@example.com"
    matchScore := a.matchScore }

/-- Body of one iteration of `for (const file of files)` (lines 390-471),
with its per-file try/catch: a throw from the Gemini call skips the file
and the loop continues.  `analyze` is the oracle for `analyzeResume`
(the `generateObject` call), `idGen k` the oracle for the k-th generated
demo candidate id (`Date.now()` + random suffix). -/
def processOneFile (adminReady : Bool) (utf8 : List Nat → String)
    (mammoth : List Nat → Except Unit String)
    (analyze : String → String → Except Unit CandidateAnalysis)
    (idGen : Nat → String) (runId createdAt jobDescription : String)
    (st : LoopState) (file : FileData) : LoopState :=
  match extractTextFromFile utf8 mammoth file with
  | Except.error _ => st    -- would be caught by the per-file catch
  | Except.ok resumeText =>
    if jsTrim resumeText == "" then st    -- `if (!resumeText.trim()) continue`
    else
      -- `await analyzeResume(...)`: the external model call happens now
      let st1 : LoopState := { st with effects := st.effects ++ [Effect.modelCall] }
      match analyze resumeText jobDescription with
      | Except.error _ => st1    -- caught at lines 468-470, file skipped
      | Except.ok analysis =>
        let candidateId := idGen st.candidates.length
        let cand : RouteCandidate :=
          { id := candidateId
            runId := runId
            fileName := file.name
            textSnippet := resumeText.take 1000
            ai := analysis
            email := analysis.email
            createdAt := createdAt }
        let st2 : LoopState :=
          { st1 with
            candidates := st1.candidates ++ [cand]
            effects := st1.effects ++
              (if adminReady then [Effect.candidateCreate] else []) }
        if meetsCriteria analysis then
          { st2 with shortlisted := st2.shortlisted ++ [shortEntryOf candidateId analysis] }
        else st2

/-- The whole loop over the batch. -/
def processFiles (adminReady : Bool) (utf8 : List Nat → String)
    (mammoth : List Nat → Except Unit String)
    (analyze : String → String → Except Unit CandidateAnalysis)
    (idGen : Nat → String) (runId createdAt jobDescription : String)
    (files : List FileData) : LoopState :=
  files.foldl
    (processOneFile adminReady utf8 mammoth analyze idGen runId createdAt jobDescription)
    { candidates := [], shortlisted := [], effects := [] }

/-! ## The batch-upload POST handler
(`src/app/api/resume/process/route.ts` lines 300-528) -/

/-- A `RecruitRun` document (shared interface file). -/
structure RunData where
  jobDescription : String
  createdAt : String
  total : Nat
  shortlisted : List ShortEntry
  runStatus : String
  deriving DecidableEq

/-- Environment-driven configuration of the route, plus the oracles for
`Date.now()`-based identifiers and the current ISO time. -/
structure RouteConfig where
  adminReady : Bool
  smtpConfigured : Bool
  demoRunId : String
  storeRunId : String
  nowIso : String
  deriving DecidableEq

/-- The JSON response, summarised: HTTP status plus payload fields. -/
structure PostResponse where
  status : Nat
  success : Bool
  errorMsg : Option String
  runId : Option String
  totalProcessed : Option Nat
  shortlistedCount : Option Nat
  runData : Option RunData
  candidates : List RouteCandidate
  deriving DecidableEq

/-- `allowedTypes` (lines 346-350). -/
def allowedTypes : List String :=
  ["application/pdf", docxType, "application/msword"]

/-- A 400 validation rejection. -/
def rejectResponse (msg : String) : PostResponse :=
  { status := 400, success := false, errorMsg := some msg, runId := none
    totalProcessed := none, shortlistedCount := none, runData := none
    candidates := [] }

/-- The POST handler: validation (lines 313-362), run creation (364-378),
the file loop, the run update (473-483), shortlist emails (485-494) and
the statistics touch (501-509).  The second component lists the external
store/model/email calls made, in order. -/
def resumeProcessPOST (cfg : RouteConfig) (utf8 : List Nat → String)
    (mammoth : List Nat → Except Unit String)
    (analyze : String → String → Except Unit CandidateAnalysis)
    (idGen : Nat → String) (jobDescription : Option String)
    (files : List FileData) : PostResponse × List Effect :=
  if !jsTruthyStr jobDescription then
    (rejectResponse "Job description is required", [])
  else if files.length == 0 then
    (rejectResponse "No files provided", [])
  else if files.length > 10 then
    (rejectResponse "Maximum 10 files allowed", [])
  else
    match files.find? (fun f => !(allowedTypes.contains f.type)) with
    | some f =>
      (rejectResponse
        ("Invalid file type: " ++ f.name ++ ". Only PDF and Word documents are allowed."),
       [])
    | none =>
      let jd := jobDescription.getD ""
      let runId := if cfg.adminReady then cfg.storeRunId else cfg.demoRunId
      let runData : RunData :=
        { jobDescription := jd, createdAt := cfg.nowIso, total := files.length
          shortlisted := [], runStatus := "processing" }
      let createEff := if cfg.adminReady then [Effect.runCreate] else []
      let st := processFiles cfg.adminReady utf8 mammoth analyze idGen runId cfg.nowIso jd files
      let updatedRunData : RunData :=
        { runData with shortlisted := st.shortlisted, runStatus := "completed" }
      let updEff := if cfg.adminReady then [Effect.runUpdate] else []
      let emailEff :=
        if cfg.smtpConfigured then st.shortlisted.map (fun e => Effect.emailSend e.email)
        else []
      let statsEff := if cfg.adminReady then [Effect.statsUpdate] else []
      ({ status := 200, success := true, errorMsg := none, runId := some runId
         totalProcessed := some st.candidates.length
         shortlistedCount := some st.shortlisted.length
         runData := some updatedRunData, candidates := st.candidates },
       createEff ++ st.effects ++ updEff ++ emailEff ++ statsEff)

/-! ## Dashboard statistics
(second handler of the staged dashboard file, lines 60-201) -/

/-- A candidate document as read back by the statistics handler: it reads
`candidate.matchScore || candidate.ai?.matchScore || 0`, so both the
top-level field and the nested analysis are optional. -/
structure DashCandidate where
  matchScore : Option Rat
  ai : Option CandidateAnalysis
  deriving DecidableEq

/-- `candidate.matchScore || candidate.ai?.matchScore || 0` (lines 147,
165, 171). -/
def dashMatchScore (c : DashCandidate) : Rat :=
  jsOrNum c.matchScore (jsOrNum (c.ai.map (·.matchScore)) 0)

/-- The statistics handler's shortlist filter (lines 146-149):
`matchScore >= 70`. -/
def dashIsShortlisted (c : DashCandidate) : Bool :=
  decide (dashMatchScore c ≥ 70)

/-- The candidate document the processing route stores for an analysis:
no top-level `matchScore`, the analysis nested under `ai`. -/
def candidateDocOf (a : CandidateAnalysis) : DashCandidate :=
  { matchScore := none, ai := some a }

/-- The shortlisted-candidates page's filter (staged page file lines
60-62): `candidate.ai && candidate.ai.recommended === "yes"`. -/
def pageIsShortlisted (c : DashCandidate) : Bool :=
  match c.ai with
  | some a => a.recommended == Recommended.yes
  | none => false

/-- An interview document as the statistics handler reads it (only
`status` is inspected). -/
structure DashInterview where
  status : String
  deriving DecidableEq

/-- A run document as the statistics handler reads it (only counted). -/
structure RunDoc where
  createdAt : String
  deriving DecidableEq

/-- `Math.round`: nearest integer, ties toward positive infinity. -/
def jsMathRound (x : Rat) : Int :=
  ⌊x + 1 / 2⌋

/-- The `RecruitmentStats` record. -/
structure RecruitmentStats where
  totalCandidates : Nat
  shortlistedCandidates : Nat
  interviewsCompleted : Nat
  interviewsScheduled : Nat
  totalRuns : Nat
  averageMatchScore : Rat
  lastUpdated : String
  deriving DecidableEq

/-- The statistics computation of the dashboard statistics handler
(lines 142-184), a fold over the full candidate/interview/run snapshots;
`nowIso` models `new Date().toISOString()`. -/
def computeStats (candidates : List DashCandidate)
    (interviews : List DashInterview) (runs : List RunDoc)
    (nowIso : String) : RecruitmentStats :=
  let totalCandidates := candidates.length
  let shortlistedCandidates := (candidates.filter dashIsShortlisted).length
  let interviewsCompleted :=
    (interviews.filter (fun i => i.status == "completed")).length
  let interviewsScheduled :=
    (interviews.filter
      (fun i => i.status == "scheduled" || i.status == "in_progress")).length
  let totalRuns := runs.length
  let shortlistedWithScores := candidates.filter dashIsShortlisted
  let averageMatchScore :=
    if shortlistedWithScores.length > 0 then
      (shortlistedWithScores.foldl (fun sum c => sum + dashMatchScore c) 0) /
        (shortlistedWithScores.length : Rat)
    else 0
  { totalCandidates := totalCandidates
    shortlistedCandidates := shortlistedCandidates
    interviewsCompleted := interviewsCompleted
    interviewsScheduled := interviewsScheduled
    totalRuns := totalRuns
    averageMatchScore := (jsMathRound (averageMatchScore * 100) : Rat) / 100
    lastUpdated := nowIso }

/-! ## Lemmas about the processing loop -/

/-- Invariant: the shortlist is exactly the candidates that pass
`meetsCriteria`, projected to shortlist entries. -/
def shortlistInvariant (st : LoopState) : Prop :=
  st.shortlisted =
    (st.candidates.filter (fun c => meetsCriteria c.ai)).map
      (fun c => shortEntryOf c.id c.ai)

theorem processOneFile_shortlistInvariant (adminReady : Bool)
    (utf8 : List Nat → String) (mammoth : List Nat → Except Unit String)
    (analyze : String → String → Except Unit CandidateAnalysis)
    (idGen : Nat → String) (runId createdAt jd : String) (st : LoopState)
    (file : FileData) (h : shortlistInvariant st) :
    shortlistInvariant
      (processOneFile adminReady utf8 mammoth analyze idGen runId createdAt jd st file) := by
  unfold processOneFile
  unfold shortlistInvariant at h
  cases hE : extractTextFromFile utf8 mammoth file with
  | error e => exact h
  | ok resumeText =>
    by_cases ht : (jsTrim resumeText == "") = true
    · simp only [ht, if_pos]
      exact h
    · simp only [Bool.not_eq_true] at ht
      simp only [ht, Bool.false_eq_true, if_false]
      cases hA : analyze resumeText jd with
      | error e => exact h
      | ok analysis =>
        by_cases hm : meetsCriteria analysis = true
        · simp only [hm, if_pos, shortlistInvariant, List.filter_append,
            List.map_append, h]
          simp [List.filter_cons, hm]
        · simp only [Bool.not_eq_true] at hm
          simp only [hm, Bool.false_eq_true, if_false, shortlistInvariant,
            List.filter_append, List.map_append, h]
          simp [List.filter_cons, hm]

theorem processFiles_go_shortlistInvariant (adminReady : Bool)
    (utf8 : List Nat → String) (mammoth : List Nat → Except Unit String)
    (analyze : String → String → Except Unit CandidateAnalysis)
    (idGen : Nat → String) (runId createdAt jd : String)
    (files : List FileData) :
    ∀ st : LoopState, shortlistInvariant st →
      shortlistInvariant
        (files.foldl
          (processOneFile adminReady utf8 mammoth analyze idGen runId createdAt jd) st) := by
  induction files with
  | nil => intro st h; exact h
  | cons f fs ih =>
    intro st h
    exact ih _
      (processOneFile_shortlistInvariant adminReady utf8 mammoth analyze idGen
        runId createdAt jd st f h)

/-- The shortlist produced by the file loop is exactly the set of
analysed candidates passing the route's criteria check. -/
theorem processFiles_shortlisted_eq (adminReady : Bool)
    (utf8 : List Nat → String) (mammoth : List Nat → Except Unit String)
    (analyze : String → String → Except Unit CandidateAnalysis)
    (idGen : Nat → String) (runId createdAt jd : String)
    (files : List FileData) :
    (processFiles adminReady utf8 mammoth analyze idGen runId createdAt jd files).shortlisted =
      ((processFiles adminReady utf8 mammoth analyze idGen runId createdAt jd files).candidates.filter
        (fun c => meetsCriteria c.ai)).map (fun c => shortEntryOf c.id c.ai) :=
  processFiles_go_shortlistInvariant adminReady utf8 mammoth analyze idGen
    runId createdAt jd files _ rfl

/-! ## Claim C1: the shortlist rule of the processing route -/

/-- C1 (amended): in the resume-processing endpoint, a successfully
analysed candidate is added to the run's shortlisted list if and only if
the overall match score and THREE of the breakdown dimensions
(skillsMatch, experienceMatch, roleAlignment) are each at least 85 —
`educationMatch` is not part of the check.  Stated as: the shortlist is
exactly the criteria-passing candidates, projected to entries. -/
theorem C1_shortlist_decision (adminReady : Bool) (utf8 : List Nat → String)
    (mammoth : List Nat → Except Unit String)
    (analyze : String → String → Except Unit CandidateAnalysis)
    (idGen : Nat → String) (runId createdAt jd : String)
    (files : List FileData) :
    (processFiles adminReady utf8 mammoth analyze idGen runId createdAt jd files).shortlisted =
      ((processFiles adminReady utf8 mammoth analyze idGen runId createdAt jd files).candidates.filter
        (fun c => meetsCriteria c.ai)).map (fun c => shortEntryOf c.id c.ai) :=
  processFiles_shortlisted_eq adminReady utf8 mammoth analyze idGen runId
    createdAt jd files

/-- An analysis whose educationMatch is 0 while everything else is 90. -/
def lowEducationAnalysis : CandidateAnalysis :=
  { candidateName := "Low Education"
    email := some "low-edu@example.com"
    topSkills := ["TypeScript"]
    summary := "summary"
    matchScore := 90
    recommended := Recommended.yes
    scoringBreakdown :=
      { skillsMatch := 90, experienceMatch := 90, roleAlignment := 90
        educationMatch := 0 }
    matchedSkills := ["TypeScript"]
    missingSkills := []
    experienceLevel := "Senior"
    detailedFeedback :=
      { strengths := [], weaknesses := [], specificGaps := []
        recommendations := [], scoreExplanation := "" } }

/-- A docx upload whose (oracle) mammoth extraction is non-empty. -/
def docxUpload : FileData :=
  { name := "resume.docx", type := docxType, content := [1, 2, 3] }

/-- C1 (counterexample to the claim as stated): a candidate whose
educationMatch is 0 (far below 85) IS added to the shortlist, because the
route's check (lines 454-458) never reads `educationMatch`; so "shortlisted
iff all four breakdown dimensions ≥ 85" is false on the code. -/
theorem C1_education_not_checked :
    ((processFiles false (fun _ => "") (fun _ => Except.ok "resume text")
        (fun _ _ => Except.ok lowEducationAnalysis) (fun _ => "id-0")
        "run-1" "2025-01-01" "job description" [docxUpload]).shortlisted.length = 1) ∧
    ¬ specFourDimensionRule lowEducationAnalysis := by
  decide

/-! ## Claim C4: three shortlist policies in the codebase -/

/-- C4 (amended): each shortlist decision is a pure, deterministic
function of the stored analysis, and a candidate shortlisted by the
processing route (the ≥ 85 rule) is always counted as shortlisted by the
dashboard statistics (the ≥ 70 rule); but the three decision points use
three different policies, which disagree on some analyses (see the
counterexample). -/
theorem C4_route_rule_implies_dashboard_rule (a : CandidateAnalysis)
    (h : meetsCriteria a = true) :
    dashIsShortlisted (candidateDocOf a) = true := by
  unfold meetsCriteria at h
  simp only [Bool.and_eq_true, decide_eq_true_eq] at h
  have h85 : (85 : Rat) ≤ a.matchScore := h.1.1.1
  have hne : a.matchScore ≠ 0 := by
    intro h0
    rw [h0] at h85
    norm_num at h85
  have hscore : dashMatchScore (candidateDocOf a) = a.matchScore := by
    simp [dashMatchScore, candidateDocOf, jsOrNum, hne]
  unfold dashIsShortlisted
  rw [hscore]
  simp only [decide_eq_true_eq]
  linarith

/-- C4 witness: the amended theorem applied at a concrete analysis that
the route shortlists. -/
theorem C4_route_rule_implies_dashboard_rule_witness :
    dashIsShortlisted (candidateDocOf lowEducationAnalysis) = true :=
  C4_route_rule_implies_dashboard_rule lowEducationAnalysis (by decide)

/-- An analysis scoring 75 overall, 70 on each dimension, recommended
"no". -/
def midScoreAnalysis : CandidateAnalysis :=
  { candidateName := "Mid Score"
    email := some "mid@example.com"
    topSkills := []
    summary := ""
    matchScore := 75
    recommended := Recommended.no
    scoringBreakdown :=
      { skillsMatch := 70, experienceMatch := 70, roleAlignment := 70
        educationMatch := 70 }
    matchedSkills := []
    missingSkills := []
    experienceLevel := "Mid"
    detailedFeedback :=
      { strengths := [], weaknesses := [], specificGaps := []
        recommendations := [], scoreExplanation := "" } }

/-- C4 (counterexample to the claim as stated): on one and the same stored
analysis the three shortlisting sites disagree — the processing route says
no (85-rule), the dashboard statistics say yes (70-rule), the shortlisted
page says no (recommended = "yes" rule) — so no single threshold policy is
applied everywhere. -/
theorem C4_policies_disagree :
    meetsCriteria midScoreAnalysis = false ∧
    dashIsShortlisted (candidateDocOf midScoreAnalysis) = true ∧
    pageIsShortlisted (candidateDocOf midScoreAnalysis) = false := by
  decide

/-! ## Claim C8: statistics recomputation is deterministic -/

/-- C8: the statistics computation is a deterministic function of the
stored candidate/interview/run records: computing it at two different
times (the only non-record input, feeding `lastUpdated`) yields identical
values for all six aggregate numbers. -/
theorem C8_stats_deterministic (candidates : List DashCandidate)
    (interviews : List DashInterview) (runs : List RunDoc) (t1 t2 : String) :
    (computeStats candidates interviews runs t1).totalCandidates =
      (computeStats candidates interviews runs t2).totalCandidates ∧
    (computeStats candidates interviews runs t1).shortlistedCandidates =
      (computeStats candidates interviews runs t2).shortlistedCandidates ∧
    (computeStats candidates interviews runs t1).interviewsCompleted =
      (computeStats candidates interviews runs t2).interviewsCompleted ∧
    (computeStats candidates interviews runs t1).interviewsScheduled =
      (computeStats candidates interviews runs t2).interviewsScheduled ∧
    (computeStats candidates interviews runs t1).totalRuns =
      (computeStats candidates interviews runs t2).totalRuns ∧
    (computeStats candidates interviews runs t1).averageMatchScore =
      (computeStats candidates interviews runs t2).averageMatchScore :=
  ⟨rfl, rfl, rfl, rfl, rfl, rfl⟩

/-! ## Claim C9: PDF extraction ignores the file's bytes -/

/-- C9: in the active resume-processing route every file declared
`application/pdf` extracts to the one hardcoded resume text, which depends
only on the file name — two PDFs with different byte contents always
yield the same extracted text (the analysis input), byte content never
being read. -/
theorem C9_pdf_extraction_is_hardcoded (utf8 : List Nat → String)
    (mammoth : List Nat → Except Unit String) (name : String)
    (content other : List Nat) :
    extractTextFromFile utf8 mammoth
        { name := name, type := "application/pdf", content := content } =
      Except.ok (hardcodedPdfText name) ∧
    extractTextFromFile utf8 mammoth
        { name := name, type := "application/pdf", content := content } =
      extractTextFromFile utf8 mammoth
        { name := name, type := "application/pdf", content := other } :=
  ⟨rfl, rfl⟩

/-! ## Claims C5/C6/C7: extractor totality, validation, counting -/

/-- `jsCatchEmpty` never lets an error escape. -/
theorem jsCatchEmpty_isOk (x : Except Unit String) :
    ∃ s, jsCatchEmpty x = Except.ok s := by
  cases x with
  | ok s => exact ⟨s, rfl⟩
  | error e => exact ⟨"", rfl⟩

/-- A file produces a candidate record exactly when its extracted text is
non-empty after trimming AND the model call returns an analysis. -/
def fileYieldsCandidate (utf8 : List Nat → String)
    (mammoth : List Nat → Except Unit String)
    (analyze : String → String → Except Unit CandidateAnalysis)
    (jd : String) (f : FileData) : Bool :=
  match extractTextFromFile utf8 mammoth f with
  | Except.error _ => false
  | Except.ok t => !(jsTrim t == "") && (analyze t jd).isOk

/-- The predicate of the claim as stated: the extracted text is non-empty
(nothing about the model call). -/
def extractedNonEmpty (utf8 : List Nat → String)
    (mammoth : List Nat → Except Unit String) (f : FileData) : Bool :=
  match extractTextFromFile utf8 mammoth f with
  | Except.error _ => false
  | Except.ok t => !(jsTrim t == "")

theorem processOneFile_candidates_length (adminReady : Bool)
    (utf8 : List Nat → String) (mammoth : List Nat → Except Unit String)
    (analyze : String → String → Except Unit CandidateAnalysis)
    (idGen : Nat → String) (runId createdAt jd : String) (st : LoopState)
    (file : FileData) :
    (processOneFile adminReady utf8 mammoth analyze idGen runId createdAt jd st file).candidates.length =
      st.candidates.length +
        (if fileYieldsCandidate utf8 mammoth analyze jd file then 1 else 0) := by
  unfold processOneFile fileYieldsCandidate
  cases hE : extractTextFromFile utf8 mammoth file with
  | error e => simp
  | ok t =>
    by_cases ht : (jsTrim t == "") = true
    · simp [ht]
    · simp only [Bool.not_eq_true] at ht
      cases hA : analyze t jd with
      | error e => simp [ht, hA, Except.isOk, Except.toBool]
      | ok analysis =>
        by_cases hm : meetsCriteria analysis = true
        · simp [ht, hA, hm, Except.isOk, Except.toBool]
        · simp only [Bool.not_eq_true] at hm
          simp [ht, hA, hm, Except.isOk, Except.toBool]

theorem processFiles_go_candidates_length (adminReady : Bool)
    (utf8 : List Nat → String) (mammoth : List Nat → Except Unit String)
    (analyze : String → String → Except Unit CandidateAnalysis)
    (idGen : Nat → String) (runId createdAt jd : String)
    (files : List FileData) :
    ∀ st : LoopState,
      (files.foldl
        (processOneFile adminReady utf8 mammoth analyze idGen runId createdAt jd)
        st).candidates.length =
      st.candidates.length +
        (files.filter (fileYieldsCandidate utf8 mammoth analyze jd)).length := by
  induction files with
  | nil => intro st; simp
  | cons f fs ih =>
    intro st
    rw [List.foldl_cons, ih, processOneFile_candidates_length]
    by_cases hf : fileYieldsCandidate utf8 mammoth analyze jd f = true
    · simp [List.filter_cons, hf]
      omega
    · simp only [Bool.not_eq_true] at hf
      simp [List.filter_cons, hf]

/-- A file whose extracted text trims to `""` is skipped: the loop state
is unchanged. -/
theorem processOneFile_skip (adminReady : Bool) (utf8 : List Nat → String)
    (mammoth : List Nat → Except Unit String)
    (analyze : String → String → Except Unit CandidateAnalysis)
    (idGen : Nat → String) (runId createdAt jd : String) (st : LoopState)
    (file : FileData) (t : String)
    (hE : extractTextFromFile utf8 mammoth file = Except.ok t)
    (ht : (jsTrim t == "") = true) :
    processOneFile adminReady utf8 mammoth analyze idGen runId createdAt jd st file = st := by
  unfold processOneFile
  rw [hE]
  simp [ht]

/-- C5: for every input file (any bytes, any declared media type) and any
behaviour of the parsing libraries, both text extractors return a string
(possibly `""`) and never propagate an exception to their caller; and a
file that extracts to blank text is skipped without affecting the rest of
the batch. -/
theorem C5_extractor_never_throws (adminReady : Bool)
    (utf8 : List Nat → String) (pdfParse : List Nat → Except Unit String)
    (mammoth : List Nat → Except Unit String)
    (analyze : String → String → Except Unit CandidateAnalysis)
    (idGen : Nat → String) (runId createdAt jd : String) (file : FileData)
    (xs ys : List FileData) :
    (∃ s, extractTextFromFile utf8 mammoth file = Except.ok s) ∧
    (∃ s, extractTextFromFileLegacy utf8 pdfParse mammoth file = Except.ok s) ∧
    (∀ t, extractTextFromFile utf8 mammoth file = Except.ok t →
      (jsTrim t == "") = true →
      processFiles adminReady utf8 mammoth analyze idGen runId createdAt jd (xs ++ file :: ys) =
        processFiles adminReady utf8 mammoth analyze idGen runId createdAt jd (xs ++ ys)) := by
  refine ⟨?_, ?_, ?_⟩
  · unfold extractTextFromFile
    exact jsCatchEmpty_isOk _
  · unfold extractTextFromFileLegacy
    exact jsCatchEmpty_isOk _
  · intro t hE ht
    unfold processFiles
    rw [List.foldl_append, List.foldl_append, List.foldl_cons,
      processOneFile_skip adminReady utf8 mammoth analyze idGen runId createdAt jd _ file t hE ht]

/-- C6: the batch-upload endpoint returns HTTP 400 when the job
description is missing/empty, when no files are provided, when more than
10 files are provided, or when some file has a type other than PDF/Word;
in every such case the effect list is empty — no model, store or email
call was made and no Run record was created. -/
theorem C6_validation_rejects_before_effects (cfg : RouteConfig)
    (utf8 : List Nat → String) (mammoth : List Nat → Except Unit String)
    (analyze : String → String → Except Unit CandidateAnalysis)
    (idGen : Nat → String) (jobDescription : Option String)
    (files : List FileData)
    (h : jsTruthyStr jobDescription = false ∨ files = [] ∨
      10 < files.length ∨ ∃ f ∈ files, f.type ∉ allowedTypes) :
    (resumeProcessPOST cfg utf8 mammoth analyze idGen jobDescription files).1.status = 400 ∧
    (resumeProcessPOST cfg utf8 mammoth analyze idGen jobDescription files).2 = [] := by
  unfold resumeProcessPOST
  by_cases h1 : jsTruthyStr jobDescription = false
  · simp [h1, rejectResponse]
  · simp only [Bool.not_eq_false] at h1
    by_cases h2 : (files.length == 0) = true
    · simp [h1, h2, rejectResponse]
    · simp only [Bool.not_eq_true] at h2
      by_cases h3 : 10 < files.length
      · simp [h1, h2, h3, rejectResponse]
      · have hbad : ∃ f ∈ files, f.type ∉ allowedTypes := by
          rcases h with h | h | h | h
          · rw [h1] at h; cases h
          · rw [h] at h2; simp at h2
          · exact absurd h h3
          · exact h
        obtain ⟨f, hf, hfty⟩ := hbad
        cases hfind : files.find? (fun f => !(allowedTypes.contains f.type)) with
        | none =>
          exfalso
          have := List.find?_eq_none.mp hfind f hf
          simp [List.contains, List.elem_iff] at this
          exact hfty this
        | some g =>
          simp [h1, h2, h3, hfind, rejectResponse]

/-- C7 (amended): for every batch of N valid files the created Run record
has `total = N`, and the number of candidate records created equals the
number of files whose extracted text is non-empty AND whose model
analysis succeeds (an analysis failure skips the file, see the
counterexample). -/
theorem C7_run_total_and_candidate_count (cfg : RouteConfig)
    (utf8 : List Nat → String) (mammoth : List Nat → Except Unit String)
    (analyze : String → String → Except Unit CandidateAnalysis)
    (idGen : Nat → String) (jd : String) (files : List FileData)
    (hjd : jd ≠ "") (h0 : files ≠ []) (h10 : ¬ 10 < files.length)
    (hty : ∀ f ∈ files, f.type ∈ allowedTypes) :
    (∃ rd, (resumeProcessPOST cfg utf8 mammoth analyze idGen (some jd) files).1.runData =
        some rd ∧ rd.total = files.length) ∧
    (resumeProcessPOST cfg utf8 mammoth analyze idGen (some jd) files).1.candidates.length =
      (files.filter (fileYieldsCandidate utf8 mammoth analyze jd)).length := by
  have h1 : jsTruthyStr (some jd) = true := by simp [jsTruthyStr, hjd]
  have h2 : (files.length == 0) = false := by
    simp [List.length_eq_zero]
    exact h0
  have h3 : files.find? (fun f => !(allowedTypes.contains f.type)) = none := by
    refine List.find?_eq_none.mpr fun f hf => ?_
    simp [List.contains, List.elem_iff]
    exact hty f hf
  unfold resumeProcessPOST
  simp only [h1, h2, h3, Bool.not_true, Bool.false_eq_true, if_false, h10,
    Option.getD_some]
  constructor
  · exact ⟨_, rfl, rfl⟩
  · simpa [processFiles] using
      processFiles_go_candidates_length cfg.adminReady utf8 mammoth analyze idGen
        (if cfg.adminReady then cfg.storeRunId else cfg.demoRunId) cfg.nowIso jd files
        { candidates := [], shortlisted := [], effects := [] }

/-- A configuration with neither Firebase admin nor SMTP configured. -/
def demoConfig : RouteConfig :=
  { adminReady := false, smtpConfigured := false, demoRunId := "demo-run-1"
    storeRunId := "run-1", nowIso := "2025-01-01T00:00:00.000Z" }

/-- A PDF upload. -/
def pdfUpload : FileData :=
  { name := "cv.pdf", type := "application/pdf", content := [37, 80, 68, 70] }

/-- C6 witness: the theorem applied to a request with no files and a
missing job description. -/
theorem C6_validation_rejects_before_effects_witness :
    (resumeProcessPOST demoConfig (fun _ => "") (fun _ => Except.error ())
        (fun _ _ => Except.error ()) (fun _ => "id-0") none []).1.status = 400 ∧
    (resumeProcessPOST demoConfig (fun _ => "") (fun _ => Except.error ())
        (fun _ _ => Except.error ()) (fun _ => "id-0") none []).2 = [] :=
  C6_validation_rejects_before_effects demoConfig (fun _ => "")
    (fun _ => Except.error ()) (fun _ _ => Except.error ()) (fun _ => "id-0")
    none [] (Or.inl rfl)

/-- C7 witness: the theorem applied to a valid one-file batch. -/
theorem C7_run_total_and_candidate_count_witness :
    (∃ rd, (resumeProcessPOST demoConfig (fun _ => "")
        (fun _ => Except.ok "resume text") (fun _ _ => Except.ok lowEducationAnalysis)
        (fun _ => "id-0") (some "job description") [pdfUpload]).1.runData =
        some rd ∧ rd.total = [pdfUpload].length) ∧
    (resumeProcessPOST demoConfig (fun _ => "")
        (fun _ => Except.ok "resume text") (fun _ _ => Except.ok lowEducationAnalysis)
        (fun _ => "id-0") (some "job description") [pdfUpload]).1.candidates.length =
      ([pdfUpload].filter
        (fileYieldsCandidate (fun _ => "") (fun _ => Except.ok "resume text")
          (fun _ _ => Except.ok lowEducationAnalysis) "job description")).length :=
  C7_run_total_and_candidate_count demoConfig (fun _ => "")
    (fun _ => Except.ok "resume text") (fun _ _ => Except.ok lowEducationAnalysis)
    (fun _ => "id-0") "job description" [pdfUpload] (by decide) (by decide)
    (by decide) (by decide)

/-- C7 (counterexample to the claim as stated): one valid docx file whose
text extracts non-empty, but whose model call throws — the run ends with
ZERO candidate records although one file yielded non-empty text, so
"as many Candidate records as files with non-empty extracted text" fails. -/
theorem C7_model_failure_breaks_count :
    ((resumeProcessPOST demoConfig (fun _ => "")
        (fun _ => Except.ok "resume text") (fun _ _ => Except.error ())
        (fun _ => "id-0") (some "job description") [docxUpload]).1.candidates.length = 0) ∧
    ([docxUpload].filter
      (extractedNonEmpty (fun _ => "") (fun _ => Except.ok "resume text"))).length = 1 := by
  decide

/-! ## Claim C2: interview runner status writes
(`src/app/api/interview/run/route.ts`) -/

/-- The `status` union of `RecruitInterview`. -/
inductive InterviewStatus where
  | scheduled
  | in_progress
  | completed
  | failed
  deriving DecidableEq

/-- How the voice session plays out, the branching of the handler's
promise: `vapi.start` rejects (line 306); the `error` event fires
(line 281); `call-end` fires but a throw happens in `onCallEnd` BEFORE
the `completed` status update at lines 244-250 (the run fetch at 224 or
report generation at 229; `createFeedback` catches its own errors);
`call-end` fires, the `completed` update succeeds, and a throw happens
AFTER it in the email step (lines 253-264 — `createEmailTransporter()`
is called outside any inner try, and `nodemailer.createTransporter`,
a typo for `createTransport`, throws); or everything succeeds.  Either
throw lands in the catch at line 272, resolving a 500. -/
inductive VapiOutcome where
  | startFailure
  | errorEvent
  | callEndReportFailure
  | callEndEmailFailure
  | callEndSuccess
  deriving DecidableEq

/-- Everything the handler inspects before driving the session. -/
structure RunRouteRequest where
  adminReady : Bool
  authHeader : Option String
  interviewId : Option String
  interviewExists : Bool
  candidateExists : Bool
  outcome : VapiOutcome
  deriving DecidableEq

/-- Outcomes resolved with a failure response (everything but a fully
clean `call-end`). -/
def isErrorOutcome : VapiOutcome → Bool
  | VapiOutcome.callEndSuccess => false
  | _ => true

/-- The POST handler of the interview runner: HTTP status of the resolved
response, and the ordered list of writes to the interview document's
`status` field.  Lines 149-200 gate; lines 198-200 write `in_progress`
unconditionally; lines 244-250 write `completed` inside `onCallEnd`.
A start failure, an error event, or an `onCallEnd` throw before that
update resolve a 500 with no further status write; an `onCallEnd` throw
after the update (the email step) resolves a 500 with `completed`
already written.  No path ever writes `failed`. -/
def interviewRunPOST (req : RunRouteRequest) (internalKey : String) :
    Nat × List InterviewStatus :=
  if !req.adminReady then (500, [])
  else if req.authHeader != some ("Bearer " ++ internalKey) then (401, [])
  else if !jsTruthyStr req.interviewId then (400, [])
  else if !req.interviewExists then (404, [])
  else if !req.candidateExists then (404, [])
  else
    match req.outcome with
    | VapiOutcome.callEndSuccess =>
      (200, [InterviewStatus.in_progress, InterviewStatus.completed])
    | VapiOutcome.callEndEmailFailure =>
      (500, [InterviewStatus.in_progress, InterviewStatus.completed])
    | VapiOutcome.callEndReportFailure => (500, [InterviewStatus.in_progress])
    | VapiOutcome.errorEvent => (500, [InterviewStatus.in_progress])
    | VapiOutcome.startFailure => (500, [InterviewStatus.in_progress])

/-- All five gates of lines 149-195 pass: the handler reaches the
`in_progress` write and the voice session. -/
def sessionReached (req : RunRouteRequest) (internalKey : String) : Bool :=
  req.adminReady && (req.authHeader == some ("Bearer " ++ internalKey)) &&
  jsTruthyStr req.interviewId && req.interviewExists && req.candidateExists

/-- The transitions of the amended status machine:
scheduled → in_progress → completed. -/
def allowedStep : InterviewStatus → InterviewStatus → Bool
  | InterviewStatus.scheduled, InterviewStatus.in_progress => true
  | InterviewStatus.in_progress, InterviewStatus.completed => true
  | _, _ => false

/-- A sequence of status writes only takes allowed steps from `s`. -/
def statusChainOk : InterviewStatus → List InterviewStatus → Bool
  | _, [] => true
  | s, t :: ts => allowedStep s t && statusChainOk t ts

/-- The status after applying a list of writes to a starting status. -/
def finalStatusFrom (s : InterviewStatus) (writes : List InterviewStatus) :
    InterviewStatus :=
  writes.foldl (fun _ w => w) s

theorem interviewRunPOST_writes (req : RunRouteRequest) (internalKey : String) :
    (interviewRunPOST req internalKey).2 = [] ∨
    (interviewRunPOST req internalKey).2 = [InterviewStatus.in_progress] ∨
    (interviewRunPOST req internalKey).2 =
      [InterviewStatus.in_progress, InterviewStatus.completed] := by
  unfold interviewRunPOST
  repeat' split
  all_goals simp

theorem interviewRunPOST_of_sessionReached (req : RunRouteRequest)
    (internalKey : String) (h : sessionReached req internalKey = true) :
    interviewRunPOST req internalKey =
      match req.outcome with
      | VapiOutcome.callEndSuccess =>
        (200, [InterviewStatus.in_progress, InterviewStatus.completed])
      | VapiOutcome.callEndEmailFailure =>
        (500, [InterviewStatus.in_progress, InterviewStatus.completed])
      | VapiOutcome.callEndReportFailure => (500, [InterviewStatus.in_progress])
      | VapiOutcome.errorEvent => (500, [InterviewStatus.in_progress])
      | VapiOutcome.startFailure => (500, [InterviewStatus.in_progress]) := by
  unfold sessionReached at h
  simp only [Bool.and_eq_true] at h
  obtain ⟨⟨⟨⟨h1, h2⟩, h3⟩, h4⟩, h5⟩ := h
  have h2f : (req.authHeader != some ("Bearer " ++ internalKey)) = false := by
    simp [bne, h2]
  unfold interviewRunPOST
  simp only [h1, h2f, h3, h4, h5, Bool.not_true, Bool.false_eq_true, if_false]

/-- C2 (amended): an interview driven by the runner only ever moves along
scheduled → in_progress → completed; `failed` is never written; and
`completed` is never the first write, so a direct scheduled → completed
transition never occurs.  Once the session is reached: a start failure,
an error event, or a throw before the `completed` update resolve a 500
leaving the status at `in_progress`; a throw after the `completed`
update (the email step) resolves a 500 with the status already
`completed`; a clean call-end resolves 200. -/
theorem C2_status_machine (req : RunRouteRequest) (internalKey : String) :
    statusChainOk InterviewStatus.scheduled (interviewRunPOST req internalKey).2 = true ∧
    InterviewStatus.failed ∉ (interviewRunPOST req internalKey).2 ∧
    (interviewRunPOST req internalKey).2.head? ≠ some InterviewStatus.completed ∧
    (sessionReached req internalKey = true →
      ((req.outcome = VapiOutcome.startFailure ∨ req.outcome = VapiOutcome.errorEvent ∨
          req.outcome = VapiOutcome.callEndReportFailure) →
        interviewRunPOST req internalKey = (500, [InterviewStatus.in_progress])) ∧
      (req.outcome = VapiOutcome.callEndEmailFailure →
        interviewRunPOST req internalKey =
          (500, [InterviewStatus.in_progress, InterviewStatus.completed])) ∧
      (req.outcome = VapiOutcome.callEndSuccess →
        interviewRunPOST req internalKey =
          (200, [InterviewStatus.in_progress, InterviewStatus.completed]))) := by
  have hw := interviewRunPOST_writes req internalKey
  refine ⟨?_, ?_, ?_, fun hsr => ?_⟩
  · rcases hw with hw | hw | hw <;> rw [hw] <;> decide
  · rcases hw with hw | hw | hw <;> rw [hw] <;> decide
  · rcases hw with hw | hw | hw <;> rw [hw] <;> decide
  · have h := interviewRunPOST_of_sessionReached req internalKey hsr
    refine ⟨?_, ?_, ?_⟩
    · rintro (ho | ho | ho) <;> rw [h, ho]
    · intro ho
      rw [h, ho]
    · intro ho
      rw [h, ho]

/-- The fully-authorised request on which the voice session errors. -/
def errorRunRequest : RunRouteRequest :=
  { adminReady := true, authHeader := some "Bearer internal-key"
    interviewId := some "interview-1", interviewExists := true
    candidateExists := true, outcome := VapiOutcome.errorEvent }

/-- C2 (counterexample to the claim as stated): on a voice-session error
the handler responds 500 but the only status write is `in_progress` — the
interview is never moved to `failed`, so the claimed
in_progress → failed transition does not happen. -/
theorem C2_error_never_writes_failed :
    interviewRunPOST errorRunRequest "internal-key" = (500, [InterviewStatus.in_progress]) ∧
    isErrorOutcome errorRunRequest.outcome = true ∧
    finalStatusFrom InterviewStatus.scheduled
        (interviewRunPOST errorRunRequest "internal-key").2 ≠ InterviewStatus.failed := by
  decide

/-! ## Claim C10: `getLatestInterviews`
(`src/lib/actions/general.action.ts` lines 121-174) -/

/-- An interview document of the general (practice) track, restricted to
the fields the query logic inspects; `createdAtMs` abstracts
`toMs(createdAt)` (epoch milliseconds, 0 for unparseable values). -/
structure InterviewDoc where
  id : String
  userId : String
  finalized : Bool
  createdAtMs : Int
  deriving DecidableEq

/-- A thrown Firestore error as the catch blocks inspect it. -/
structure JsError where
  message : String
  code : Int
  deriving DecidableEq

/-- Whether `pat` starts `hay`. -/
def charsStartWith : List Char → List Char → Bool
  | _, [] => true
  | [], _ :: _ => false
  | h :: hs, p :: ps => h == p && charsStartWith hs ps

/-- Whether `pat` occurs in `hay` (JS `String.prototype.includes`). -/
def charsContain : List Char → List Char → Bool
  | [], pat => pat.isEmpty
  | hay@(_ :: rest), pat => charsStartWith hay pat || charsContain rest pat

/-- `msg.includes(pat)`. -/
def containsSubstring (s pat : String) : Bool :=
  charsContain s.data pat.data

/-- The credential-error test of the catch blocks (lines 150-151). -/
def isCredentialError (e : JsError) : Bool :=
  containsSubstring e.message "Getting metadata from plugin failed" ||
  containsSubstring e.message "DECODER routines::unsupported"

/-- The missing-index test (lines 152-155). -/
def isMissingIndexError (e : JsError) : Bool :=
  e.code == 9 || containsSubstring e.message "FAILED_PRECONDITION"

/-- Insert keeping a descending-key order. -/
def insertDescBy (key : InterviewDoc → Int) (x : InterviewDoc) :
    List InterviewDoc → List InterviewDoc
  | [] => [x]
  | y :: ys => if key y < key x then x :: y :: ys else y :: insertDescBy key x ys

/-- Sort descending by key (Firestore's `orderBy("createdAt", "desc")`,
and the in-memory `sort` of the fallback). -/
def sortDescBy (key : InterviewDoc → Int) : List InterviewDoc → List InterviewDoc
  | [] => []
  | x :: xs => insertDescBy key x (sortDescBy key xs)

theorem mem_insertDescBy (key : InterviewDoc → Int) (x a : InterviewDoc)
    (l : List InterviewDoc) : a ∈ insertDescBy key x l ↔ a = x ∨ a ∈ l := by
  induction l with
  | nil => simp [insertDescBy]
  | cons y ys ih =>
    unfold insertDescBy
    by_cases h : key y < key x
    · simp [h]
    · simp [h, ih]
      tauto

theorem mem_sortDescBy (key : InterviewDoc → Int) (a : InterviewDoc)
    (l : List InterviewDoc) : a ∈ sortDescBy key l ↔ a ∈ l := by
  induction l with
  | nil => simp [sortDescBy]
  | cons x xs ih =>
    unfold sortDescBy
    rw [mem_insertDescBy, ih]
    simp

/-- `getLatestInterviews`: when the admin SDK is not ready, return `[]`
(line 134); otherwise run the indexed query (filter `finalized == true`,
order by `createdAt` desc, limit `max(limit*2, limit)`), drop the
requesting user's own interviews and slice to `limit` (lines 136-147).
`primaryFailure` injects a throw from the indexed query: a credential
error returns `[]` (line 151), a missing-index error runs the unindexed
fallback (lines 159-172), anything else is rethrown (line 157). -/
def getLatestInterviews (adminReady : Bool) (store : List InterviewDoc)
    (primaryFailure : Option JsError) (userId : String) (limit : Nat := 20) :
    Except JsError (List InterviewDoc) :=
  if !adminReady then Except.ok []
  else
    match primaryFailure with
    | none =>
      let snapshot :=
        (sortDescBy (fun d => d.createdAtMs) (store.filter (fun d => d.finalized))).take
          (max (limit * 2) limit)
      let filtered := snapshot.filter (fun d => d.userId != userId)
      Except.ok (filtered.take limit)
    | some e =>
      if isCredentialError e then Except.ok []
      else if isMissingIndexError e then
        let fallback := (store.filter (fun d => d.finalized)).take (max (limit * 3) limit)
        let sorted := sortDescBy (fun d => d.createdAtMs) fallback
        Except.ok ((sorted.filter (fun d => d.userId != userId)).take limit)
      else Except.error e

theorem filtered_take_props (X : List InterviewDoc) (userId : String)
    (limit : Nat) (hX : ∀ d ∈ X, d.finalized = true) :
    ((X.filter (fun d => d.userId != userId)).take limit).length ≤ limit ∧
    ∀ d ∈ (X.filter (fun d => d.userId != userId)).take limit,
      d.userId ≠ userId ∧ d.finalized = true := by
  constructor
  · rw [List.length_take]
    exact Nat.min_le_left _ _
  · intro d hd
    have hd' := List.mem_of_mem_take hd
    rw [List.mem_filter] at hd'
    refine ⟨?_, hX d hd'.1⟩
    simpa using hd'.2

/-- C10: for every store contents, user id and limit, a successful call
returns at most `limit` interviews, none belonging to the requesting
user, all finalized; an unconfigured admin SDK or a credential error from
the store yields `Except.ok []` rather than an error. -/
theorem C10_getLatestInterviews_guarantees (adminReady : Bool)
    (store : List InterviewDoc) (primaryFailure : Option JsError)
    (userId : String) (limit : Nat) :
    (∀ l, getLatestInterviews adminReady store primaryFailure userId limit = Except.ok l →
      l.length ≤ limit ∧ ∀ d ∈ l, d.userId ≠ userId ∧ d.finalized = true) ∧
    (adminReady = false →
      getLatestInterviews adminReady store primaryFailure userId limit = Except.ok []) ∧
    (∀ e, primaryFailure = some e → isCredentialError e = true →
      getLatestInterviews adminReady store primaryFailure userId limit = Except.ok []) := by
  refine ⟨?_, ?_, ?_⟩
  · intro l hl
    unfold getLatestInterviews at hl
    by_cases ha : adminReady = false
    · simp [ha] at hl
      subst hl
      simp
    · simp only [Bool.not_eq_false] at ha
      simp only [ha, Bool.not_true, Bool.false_eq_true, if_false] at hl
      cases hp : primaryFailure with
      | none =>
        rw [hp] at hl
        injection hl with hl
        subst hl
        refine filtered_take_props _ userId limit fun d hd => ?_
        have hd1 := List.mem_of_mem_take hd
        rw [mem_sortDescBy, List.mem_filter] at hd1
        exact hd1.2
      | some e =>
        rw [hp] at hl
        by_cases hc : isCredentialError e = true
        · simp [hc] at hl
          subst hl
          simp
        · simp only [Bool.not_eq_true] at hc
          by_cases hm : isMissingIndexError e = true
          · simp only [hc, Bool.false_eq_true, if_false, hm, if_true] at hl
            injection hl with hl
            subst hl
            refine filtered_take_props _ userId limit fun d hd => ?_
            rw [mem_sortDescBy] at hd
            have hd1 := List.mem_of_mem_take hd
            rw [List.mem_filter] at hd1
            exact hd1.2
          · simp only [Bool.not_eq_true] at hm
            simp [hc, hm] at hl
  · intro ha
    simp [getLatestInterviews, ha]
  · intro e hp hc
    simp [getLatestInterviews, hp, hc]

/-! ## Claim C3: webhook signature verification
(staged webhook route file: `verifyWebhookSignature` lines 36-46, `POST`
lines 80-178).  `crypto.createHmac("sha256", secret).update(payload)
.digest("hex")`, `Buffer.from(s, "hex")` and `crypto.timingSafeEqual` are
implemented below (HMAC-SHA256 per FIPS 180-4 / RFC 2104, Node's hex
parsing, OpenSSL's length-checked constant-time comparison). -/

/-- 2^32; SHA-256 works on 32-bit words, modelled as `Nat mod w32`. -/
def w32 : Nat := 4294967296

/-- Rotate a 32-bit word right by `n`. -/
def rotr32 (n x : Nat) : Nat :=
  ((x >>> n) ||| (x <<< (32 - n))) % w32

/-- SHA-256 `Ch(x,y,z)`; `x ^^^ 0xffffffff` is 32-bit complement. -/
def shaCh (x y z : Nat) : Nat :=
  (x &&& y) ^^^ ((x ^^^ 4294967295) &&& z)

/-- SHA-256 `Maj(x,y,z)`. -/
def shaMaj (x y z : Nat) : Nat :=
  (x &&& y) ^^^ (x &&& z) ^^^ (y &&& z)

def bigSigma0 (x : Nat) : Nat := rotr32 2 x ^^^ rotr32 13 x ^^^ rotr32 22 x

def bigSigma1 (x : Nat) : Nat := rotr32 6 x ^^^ rotr32 11 x ^^^ rotr32 25 x

def smallSigma0 (x : Nat) : Nat := rotr32 7 x ^^^ rotr32 18 x ^^^ (x >>> 3)

def smallSigma1 (x : Nat) : Nat := rotr32 17 x ^^^ rotr32 19 x ^^^ (x >>> 10)

/-- The 64 SHA-256 round constants. -/
def sha256K : List Nat :=
  [1116352408, 1899447441, 3049323471, 3921009573, 961987163, 1508970993,
   2453635748, 2870763221, 3624381080, 310598401, 607225278, 1426881987,
   1925078388, 2162078206, 2614888103, 3248222580, 3835390401, 4022224774,
   264347078, 604807628, 770255983, 1249150122, 1555081692, 1996064986,
   2554220882, 2821834349, 2952996808, 3210313671, 3336571891, 3584528711,
   113926993, 338241895, 666307205, 773529912, 1294757372, 1396182291,
   1695183700, 1986661051, 2177026350, 2456956037, 2730485921, 2820302411,
   3259730800, 3345764771, 3516065817, 3600352804, 4094571909, 275423344,
   430227734, 506948616, 659060556, 883997877, 958139571, 1322822218,
   1537002063, 1747873779, 1955562222, 2024104815, 2227730452, 2361852424,
   2428436474, 2756734187, 3204031479, 3329325298]

/-- The eight working variables a..h of SHA-256. -/
structure Sha256State where
  sa : Nat
  sb : Nat
  sc : Nat
  sd : Nat
  se : Nat
  sf : Nat
  sg : Nat
  sh : Nat
  deriving DecidableEq

/-- The SHA-256 initial hash value. -/
def sha256Init : Sha256State :=
  ⟨1779033703, 3144134277, 1013904242, 2773480762,
   1359893119, 2600822924, 528734635, 1541459225⟩

/-- Big-endian bytes to 32-bit words. -/
def bytesToWordsBE : List Nat → List Nat
  | b0 :: b1 :: b2 :: b3 :: rest =>
    (((b0 * 256 + b1) * 256 + b2) * 256 + b3) :: bytesToWordsBE rest
  | _ => []

/-- Extend the 16 block words to the 64-word message schedule. -/
def extendWords : Nat → List Nat → List Nat
  | 0, w => w
  | r + 1, w =>
    let i := w.length
    extendWords r
      (w ++ [(smallSigma1 (w.getD (i - 2) 0) + w.getD (i - 7) 0 +
        smallSigma0 (w.getD (i - 15) 0) + w.getD (i - 16) 0) % w32])

/-- One SHA-256 round. -/
def sha256Round (s : Sha256State) (k : Nat) (w : Nat) : Sha256State :=
  let t1 := (s.sh + bigSigma1 s.se + shaCh s.se s.sf s.sg + k + w) % w32
  let t2 := (bigSigma0 s.sa + shaMaj s.sa s.sb s.sc) % w32
  ⟨(t1 + t2) % w32, s.sa, s.sb, s.sc, (s.sd + t1) % w32, s.se, s.sf, s.sg⟩

/-- Compress one 64-byte block into the hash state. -/
def sha256Compress (h : Sha256State) (block : List Nat) : Sha256State :=
  let ws := extendWords 48 (bytesToWordsBE block)
  let t := (sha256K.zip ws).foldl (fun s p => sha256Round s p.1 p.2) h
  ⟨(h.sa + t.sa) % w32, (h.sb + t.sb) % w32, (h.sc + t.sc) % w32,
   (h.sd + t.sd) % w32, (h.se + t.se) % w32, (h.sf + t.sf) % w32,
   (h.sg + t.sg) % w32, (h.sh + t.sh) % w32⟩

/-- The 8-byte big-endian bit length of the padding. -/
def lengthBytesBE (n : Nat) : List Nat :=
  [(n >>> 56) % 256, (n >>> 48) % 256, (n >>> 40) % 256, (n >>> 32) % 256,
   (n >>> 24) % 256, (n >>> 16) % 256, (n >>> 8) % 256, n % 256]

/-- SHA-256 padding: 0x80, zeros to 56 mod 64, the bit length. -/
def padMessage (msg : List Nat) : List Nat :=
  msg ++ [0x80] ++ List.replicate ((119 - (msg.length % 64)) % 64) 0 ++
    lengthBytesBE (8 * msg.length)

/-- Split into 64-byte blocks (fuel = number of blocks). -/
def chunksOf64 : Nat → List Nat → List (List Nat)
  | 0, _ => []
  | n + 1, l => l.take 64 :: chunksOf64 n (l.drop 64)

/-- A 32-bit word as 4 big-endian bytes. -/
def wordBytesBE (w : Nat) : List Nat :=
  [(w >>> 24) % 256, (w >>> 16) % 256, (w >>> 8) % 256, w % 256]

/-- The 32 digest bytes of a final state. -/
def digestBytesOf (s : Sha256State) : List Nat :=
  wordBytesBE s.sa ++ wordBytesBE s.sb ++ wordBytesBE s.sc ++ wordBytesBE s.sd ++
  wordBytesBE s.se ++ wordBytesBE s.sf ++ wordBytesBE s.sg ++ wordBytesBE s.sh

/-- SHA-256 of a byte sequence (validated against the FIPS 180-4 test
vectors for "", "abc" and the 56-byte two-block message). -/
def sha256 (msg : List Nat) : List Nat :=
  let padded := padMessage msg
  digestBytesOf ((chunksOf64 (padded.length / 64) padded).foldl sha256Compress sha256Init)

/-- HMAC-SHA256 (RFC 2104; validated against the RFC 4231-style "key" /
"The quick brown fox…" vector). -/
def hmacSha256 (key msg : List Nat) : List Nat :=
  let k0 := if 64 < key.length then sha256 key else key
  let kpad := k0 ++ List.replicate (64 - k0.length) 0
  sha256 ((kpad.map (fun b => b ^^^ 0x5c)) ++
    sha256 ((kpad.map (fun b => b ^^^ 0x36)) ++ msg))

/-- Lowercase hex of a byte list (`digest("hex")`). -/
def hexEncodeBytes (bs : List Nat) : List Char :=
  bs.foldr (fun b acc => Nat.digitChar (b / 16) :: Nat.digitChar (b % 16) :: acc) []

/-- Lowercase hex string of a byte list. -/
def hexEncode (bs : List Nat) : String :=
  String.mk (hexEncodeBytes bs)

/-- UTF-8 bytes of one character. -/
def strBytesChar (c : Char) : List Nat :=
  let n := c.toNat
  if n < 128 then [n]
  else if n < 2048 then [192 ||| (n >>> 6), 128 ||| (n &&& 63)]
  else if n < 65536 then
    [224 ||| (n >>> 12), 128 ||| ((n >>> 6) &&& 63), 128 ||| (n &&& 63)]
  else
    [240 ||| (n >>> 18), 128 ||| ((n >>> 12) &&& 63),
     128 ||| ((n >>> 6) &&& 63), 128 ||| (n &&& 63)]

/-- UTF-8 bytes of a string (what `createHmac(...).update(payload)` hashes
for a JS string argument). -/
def strBytes (s : String) : List Nat :=
  s.data.foldr (fun c acc => strBytesChar c ++ acc) []

/-- `crypto.createHmac("sha256", secret).update(payload).digest("hex")`:
the `expectedSignature` of `verifyWebhookSignature`. -/
def hmacSha256Hex (secret payload : String) : String :=
  hexEncode (hmacSha256 (strBytes secret) (strBytes payload))

/-- Value of one hex digit, either case. -/
def hexVal? (c : Char) : Option Nat :=
  if '0' ≤ c ∧ c ≤ '9' then some (c.toNat - 48)
  else if 'a' ≤ c ∧ c ≤ 'f' then some (c.toNat - 97 + 10)
  else if 'A' ≤ c ∧ c ≤ 'F' then some (c.toNat - 65 + 10)
  else none

/-- `Buffer.from(s, "hex")`: decode pairs of hex digits, stopping at the
first invalid pair or lone trailing digit (Node semantics). -/
def hexDecodeChars : List Char → List Nat
  | c1 :: c2 :: rest =>
    (match hexVal? c1, hexVal? c2 with
     | some hi, some lo => (16 * hi + lo) :: hexDecodeChars rest
     | _, _ => [])
  | _ => []

/-- `Buffer.from(s, "hex")` on a string. -/
def bufferFromHex (s : String) : List Nat :=
  hexDecodeChars s.data

/-- `crypto.timingSafeEqual(a, b)`: THROWS (a `RangeError`) when the
buffers differ in length; otherwise compares every byte pair,
accumulating the or of the xors — no short-circuit on a mismatch. -/
def timingSafeEqual (a b : List Nat) : Except Unit Bool :=
  if a.length != b.length then Except.error ()
  else Except.ok (((a.zip b).foldl (fun acc p => acc ||| (p.1 ^^^ p.2)) 0) == 0)

/-- `verifyWebhookSignature` (webhook route lines 36-46). -/
def verifyWebhookSignature (payload signature secret : String) :
    Except Unit Bool :=
  let expectedSignature := hmacSha256Hex secret payload
  timingSafeEqual (bufferFromHex signature) (bufferFromHex expectedSignature)

/-- The parsed webhook body, restricted to what the handler reads. -/
structure WebhookEvent where
  eventName : String
  inviteeEmail : Option String
  scheduledAt : Option String
  deriving DecidableEq

/-- HTTP status of the webhook response, and whether an interview record
was created. -/
structure WebhookOutcome where
  status : Nat
  interviewCreated : Bool
  deriving DecidableEq

/-- The webhook handler AFTER the signature gate (lines 103-169):
`JSON.parse` (`parse` oracle; `none` = throw, caught by the outer catch as
a 500), the `invitee.created` branch, required-field check, candidate
lookup (`candidateFound` oracle), interview creation. -/
def webhookAfterVerify (body : String) (parse : String → Option WebhookEvent)
    (candidateFound : Bool) : WebhookOutcome :=
  match parse body with
  | none => ⟨500, false⟩
  | some ev =>
    if ev.eventName == "invitee.created" then
      if !(jsTruthyStr ev.inviteeEmail && jsTruthyStr ev.scheduledAt) then ⟨400, false⟩
      else if !candidateFound then ⟨200, false⟩
      else ⟨200, true⟩
    else ⟨200, false⟩

/-- The webhook POST handler (lines 80-178): admin gate, then — only when
BOTH a secret is configured AND a signature header is present (both
truthy) — signature verification: a `timingSafeEqual` throw is caught by
the outer catch (500), a mismatch yields 401, a match falls through to
event processing. -/
def calendlyWebhookPOST (adminReady : Bool) (secret : Option String)
    (signature : Option String) (body : String)
    (parse : String → Option WebhookEvent) (candidateFound : Bool) :
    WebhookOutcome :=
  if !adminReady then ⟨500, false⟩
  else if jsTruthyStr secret && jsTruthyStr signature then
    match verifyWebhookSignature body (signature.getD "") (secret.getD "") with
    | Except.error _ => ⟨500, false⟩
    | Except.ok false => ⟨401, false⟩
    | Except.ok true => webhookAfterVerify body parse candidateFound
  else webhookAfterVerify body parse candidateFound

/-! ### Lemmas about the comparison and the hex codec -/

theorem lor_eq_zero_iff (a b : Nat) : a ||| b = 0 ↔ a = 0 ∧ b = 0 := by
  constructor
  · intro h
    have hb : ∀ i, (a.testBit i || b.testBit i) = false := by
      intro i
      have := congrArg (fun n => Nat.testBit n i) h
      simpa [Nat.testBit_or, Nat.zero_testBit] using this
    refine ⟨Nat.eq_of_testBit_eq fun i => ?_, Nat.eq_of_testBit_eq fun i => ?_⟩
    · have h2 := hb i
      simp only [Bool.or_eq_false_iff] at h2
      simp [h2.1, Nat.zero_testBit]
    · have h2 := hb i
      simp only [Bool.or_eq_false_iff] at h2
      simp [h2.2, Nat.zero_testBit]
  · rintro ⟨rfl, rfl⟩
    rfl

theorem foldl_lor_xor_eq_zero (l : List (Nat × Nat)) (acc : Nat) :
    l.foldl (fun acc p => acc ||| (p.1 ^^^ p.2)) acc = 0 ↔
      acc = 0 ∧ ∀ p ∈ l, p.1 = p.2 := by
  induction l generalizing acc with
  | nil => simp
  | cons p ps ih =>
    rw [List.foldl_cons, ih, lor_eq_zero_iff, Nat.xor_eq_zero]
    simp only [List.mem_cons]
    constructor
    · rintro ⟨⟨h1, h2⟩, h3⟩
      exact ⟨h1, fun q hq => hq.elim (fun hq => hq ▸ h2) (h3 q)⟩
    · rintro ⟨h1, h2⟩
      exact ⟨⟨h1, h2 p (Or.inl rfl)⟩, fun q hq => h2 q (Or.inr hq)⟩

theorem zip_forall_eq (a : List Nat) :
    ∀ b : List Nat, a.length = b.length →
      ((∀ p ∈ a.zip b, p.1 = p.2) ↔ a = b) := by
  induction a with
  | nil =>
    intro b hlen
    cases b with
    | nil => simp
    | cons y ys => simp at hlen
  | cons x xs ih =>
    intro b hlen
    cases b with
    | nil => simp at hlen
    | cons y ys =>
      have hlen' : xs.length = ys.length := by simpa using hlen
      simp only [List.zip_cons_cons, List.mem_cons, List.cons.injEq]
      rw [← ih ys hlen']
      constructor
      · intro h
        exact ⟨h (x, y) (Or.inl rfl), fun q hq => h q (Or.inr hq)⟩
      · rintro ⟨h1, h2⟩ q hq
        exact hq.elim (fun hq => by simp [hq, h1]) (h2 q)

theorem timingSafeEqual_throws (a b : List Nat) (h : a.length ≠ b.length) :
    timingSafeEqual a b = Except.error () := by
  unfold timingSafeEqual
  rw [if_pos]
  simpa using h

theorem timingSafeEqual_of_length_eq (a b : List Nat)
    (h : a.length = b.length) :
    timingSafeEqual a b = Except.ok (decide (a = b)) := by
  unfold timingSafeEqual
  rw [if_neg (by simpa using h)]
  congr 1
  have h0 : ((a.zip b).foldl (fun acc p => acc ||| (p.1 ^^^ p.2)) 0 = 0) ↔ a = b := by
    rw [foldl_lor_xor_eq_zero, zip_forall_eq a b h]
    simp
  by_cases hab : a = b
  · subst hab
    have h1 : (a.zip a).foldl (fun acc p => acc ||| (p.1 ^^^ p.2)) 0 = 0 := h0.mpr rfl
    simp [h1]
  · have h1 : (a.zip b).foldl (fun acc p => acc ||| (p.1 ^^^ p.2)) 0 ≠ 0 :=
      fun hf => hab (h0.mp hf)
    simp [hab, h1]

theorem mem_wordBytesBE_lt (w b : Nat) (hb : b ∈ wordBytesBE w) : b < 256 := by
  simp only [wordBytesBE, List.mem_cons, List.not_mem_nil, or_false] at hb
  rcases hb with rfl | rfl | rfl | rfl <;> exact Nat.mod_lt _ (by norm_num)

theorem digestBytesOf_length (s : Sha256State) :
    (digestBytesOf s).length = 32 := by
  simp [digestBytesOf, wordBytesBE]

theorem digestBytesOf_lt (s : Sha256State) :
    ∀ b ∈ digestBytesOf s, b < 256 := by
  intro b hb
  simp only [digestBytesOf, List.mem_append] at hb
  rcases hb with ((((((h | h) | h) | h) | h) | h) | h) | h <;>
    exact mem_wordBytesBE_lt _ b h

theorem sha256_length (msg : List Nat) : (sha256 msg).length = 32 := by
  unfold sha256
  exact digestBytesOf_length _

theorem sha256_lt (msg : List Nat) : ∀ b ∈ sha256 msg, b < 256 := by
  unfold sha256
  exact digestBytesOf_lt _

theorem hmacSha256_length (key msg : List Nat) :
    (hmacSha256 key msg).length = 32 := by
  unfold hmacSha256
  exact sha256_length _

theorem hmacSha256_lt (key msg : List Nat) :
    ∀ b ∈ hmacSha256 key msg, b < 256 := by
  unfold hmacSha256
  exact sha256_lt _

theorem hexVal?_digitChar (n : Nat) (h : n < 16) :
    hexVal? (Nat.digitChar n) = some n := by
  interval_cases n <;> decide

theorem hexDecodeChars_hexEncodeBytes (bs : List Nat)
    (h : ∀ b ∈ bs, b < 256) : hexDecodeChars (hexEncodeBytes bs) = bs := by
  induction bs with
  | nil => rfl
  | cons b rest ih =>
    have hb : b < 256 := h b (List.mem_cons_self b rest)
    have h1 : b / 16 < 16 := by omega
    have h2 : b % 16 < 16 := Nat.mod_lt _ (by norm_num)
    have henc : hexEncodeBytes (b :: rest) =
        Nat.digitChar (b / 16) :: Nat.digitChar (b % 16) :: hexEncodeBytes rest := by
      simp [hexEncodeBytes]
    rw [henc]
    unfold hexDecodeChars
    rw [hexVal?_digitChar _ h1, hexVal?_digitChar _ h2]
    simp only [List.cons.injEq]
    refine ⟨by omega, ih fun x hx => h x (List.mem_cons_of_mem b hx)⟩

theorem bufferFromHex_hmacSha256Hex (secret payload : String) :
    bufferFromHex (hmacSha256Hex secret payload) =
      hmacSha256 (strBytes secret) (strBytes payload) := by
  unfold bufferFromHex hmacSha256Hex hexEncode
  exact hexDecodeChars_hexEncodeBytes _ (hmacSha256_lt _ _)

/-- C3 (amended): with a secret configured and a signature header present
(both non-empty), the webhook handler compares the DECODED header bytes
against the HMAC-SHA256 digest of the raw body with a length-checked,
non-short-circuiting comparison; a header that is not well-formed 32-byte
hex makes `timingSafeEqual` throw, producing a 500; a well-formed but
mismatched header produces a 401; only a matching header reaches event
processing; a MISSING signature header skips verification entirely.  In
every rejection case `interviewCreated = false` — no interview record is
written. -/
theorem C3_webhook_signature_verification (secret body sig : String)
    (parse : String → Option WebhookEvent) (candidateFound : Bool)
    (hs : secret ≠ "") (hsig : sig ≠ "") :
    ((bufferFromHex sig).length ≠ 32 →
      calendlyWebhookPOST true (some secret) (some sig) body parse candidateFound =
        ⟨500, false⟩) ∧
    ((bufferFromHex sig).length = 32 →
      bufferFromHex sig ≠ hmacSha256 (strBytes secret) (strBytes body) →
      calendlyWebhookPOST true (some secret) (some sig) body parse candidateFound =
        ⟨401, false⟩) ∧
    (bufferFromHex sig = hmacSha256 (strBytes secret) (strBytes body) →
      calendlyWebhookPOST true (some secret) (some sig) body parse candidateFound =
        webhookAfterVerify body parse candidateFound) ∧
    calendlyWebhookPOST true (some secret) none body parse candidateFound =
      webhookAfterVerify body parse candidateFound := by
  have hts : (jsTruthyStr (some secret) && jsTruthyStr (some sig)) = true := by
    simp [jsTruthyStr, hs, hsig]
  have hver : verifyWebhookSignature body sig secret =
      timingSafeEqual (bufferFromHex sig)
        (hmacSha256 (strBytes secret) (strBytes body)) := by
    show timingSafeEqual (bufferFromHex sig)
        (bufferFromHex (hmacSha256Hex secret body)) = _
    rw [bufferFromHex_hmacSha256Hex]
  refine ⟨?_, ?_, ?_, ?_⟩
  · intro hlen
    unfold calendlyWebhookPOST
    simp only [Bool.not_true, Bool.false_eq_true, if_false, hts, if_true,
      Option.getD_some]
    rw [hver, timingSafeEqual_throws]
    rw [hmacSha256_length]
    exact hlen
  · intro hlen hne
    unfold calendlyWebhookPOST
    simp only [Bool.not_true, Bool.false_eq_true, if_false, hts, if_true,
      Option.getD_some]
    rw [hver, timingSafeEqual_of_length_eq _ _ (by rw [hlen, hmacSha256_length])]
    simp [hne]
  · intro heq
    unfold calendlyWebhookPOST
    simp only [Bool.not_true, Bool.false_eq_true, if_false, hts, if_true,
      Option.getD_some]
    rw [hver, timingSafeEqual_of_length_eq _ _ (by rw [heq])]
    simp [heq]
  · unfold calendlyWebhookPOST
    have hn : (jsTruthyStr (some secret) && jsTruthyStr none) = false := by
      simp [jsTruthyStr]
    simp only [Bool.not_true, Bool.false_eq_true, if_false, hn]

/-- C3 witness: the theorem applied to secret "s", body "x" and the
provided two-character header "00", whose decoding is 1 byte, not 32. -/
theorem C3_webhook_signature_verification_witness :
    calendlyWebhookPOST true (some "s") (some "00") "x" (fun _ => none) false =
      ⟨500, false⟩ :=
  (C3_webhook_signature_verification "s" "x" "00" (fun _ => none) false
    (by decide) (by decide)).1 (by decide)

set_option maxRecDepth 20000 in
/-- C3 (counterexample to the claim as stated): secret "s", raw body "x",
signature header "00".  The header does NOT match the body's HMAC (their
decodings differ — 1 byte vs 32), yet the handler responds 500 (the
`timingSafeEqual` length throw lands in the catch-all), not the claimed
401 auth error. -/
theorem C3_mismatch_not_rejected_with_401 :
    calendlyWebhookPOST true (some "s") (some "00") "x" (fun _ => none) false =
      ⟨500, false⟩ ∧
    bufferFromHex "00" ≠ bufferFromHex (hmacSha256Hex "s" "x") := by
  decide
